import Mathlib

/-!
Verification of the counter-argument validation engine of the IASymbolique
repository: `src/counter_agent/logic/tweety_bridge.py`,
`src/counter_agent/logic/validator.py` and the data types of
`src/counter_agent/agent/definitions.py`.

Modelling conventions:
- Python floats are modelled as exact rationals (`ℚ`).
- Node identities in the source are strings: `str(id(original_arg))` /
  `str(id(counter_arg))` (decimal digit strings, pairwise distinct),
  `"counter_0"`, `"counter_1"`, ..., `"original"` and `"conclusion"`.
  They are modelled by the sum type `NodeId`, whose constructors are
  pairwise distinct exactly as the source strings are.
- The grounded / complete-extension reasoners (`SimpleGroundedReasoner`,
  `SimpleCompleteReasoner`) live in the external TweetyProject Java
  library, not in this repository's sources; they are modelled from the
  spec (sections 4.2 and 5) and each such definition is marked
  `Modelled from the spec`.
-/

/-- Embeds `CounterArgumentType` (definitions.py, lines 13-19). -/
inductive CounterArgumentType
  | DIRECT_REFUTATION
  | COUNTER_EXAMPLE
  | ALTERNATIVE_EXPLANATION
  | PREMISE_CHALLENGE
  | REDUCTIO_AD_ABSURDUM
deriving DecidableEq

/-- Embeds `ArgumentStrength` (definitions.py, lines 22-27). -/
inductive ArgumentStrength
  | WEAK
  | MODERATE
  | STRONG
  | DECISIVE
deriving DecidableEq

/-- Embeds the `Argument` dataclass (definitions.py, lines 39-46). -/
structure Argument where
  content : String
  premises : List String
  conclusion : String
  argument_type : String
  confidence : ℚ

/-- Embeds the `CounterArgument` dataclass (definitions.py, lines 59-69). -/
structure CounterArgument where
  original_argument : Argument
  counter_type : CounterArgumentType
  counter_content : String
  target_component : String
  strength : ArgumentStrength
  confidence : ℚ
  supporting_evidence : List String
  rhetorical_strategy : String

/-- Node identities of the Dung theories built by `tweety_bridge.py`:
`original` stands for the `TweetyArgument` named `str(id(original_arg))`
(or `"original"` in `generate_attack_graph`), `counter i` for the one
named `"counter_i"` (or `str(id(counter_arg))` in
`validate_counter_argument`, modelled as `counter 0`), and `conclusion`
for the auxiliary `TweetyArgument("conclusion")`. -/
inductive NodeId
  | original
  | counter (i : Nat)
  | conclusion
deriving DecidableEq

/-- Embeds TweetyProject's `DungTheory` as used by the bridge: a set of
argument nodes and a set of attack edges (set semantics, spec section 3). -/
structure DungTheory where
  nodes : List NodeId
  attacks : List (NodeId × NodeId)
deriving DecidableEq

def DungTheory.empty : DungTheory := ⟨[], []⟩

/-- `theory.add(argument)`: set-semantics insertion of a node. -/
def DungTheory.addNode (T : DungTheory) (a : NodeId) : DungTheory :=
  if a ∈ T.nodes then T else ⟨T.nodes ++ [a], T.attacks⟩

/-- `theory.add(Attack(a, b))`: set-semantics insertion of an edge `a → b`. -/
def DungTheory.addAttack (T : DungTheory) (a b : NodeId) : DungTheory :=
  if (a, b) ∈ T.attacks then T else ⟨T.nodes, T.attacks ++ [(a, b)]⟩

/-- Embeds `TweetyBridge._add_attack_based_on_type` (tweety_bridge.py,
lines 281-333).  The Python `else` branch (default attack) is unreachable
because the five `elif` arms cover the closed enum exhaustively. -/
def addAttackBasedOnType (theory : DungTheory) (counter_arg : CounterArgument)
    (original_argument counter_argument : NodeId) : DungTheory :=
  match counter_arg.counter_type with
  | .DIRECT_REFUTATION => theory.addAttack counter_argument original_argument
  | .PREMISE_CHALLENGE => theory.addAttack counter_argument original_argument
  | .COUNTER_EXAMPLE => theory.addAttack counter_argument original_argument
  | .ALTERNATIVE_EXPLANATION =>
    let theory := theory.addNode .conclusion
    let theory := theory.addAttack original_argument .conclusion
    theory.addAttack counter_argument .conclusion
  | .REDUCTIO_AD_ABSURDUM => theory.addAttack counter_argument original_argument

/-- Embeds the theory construction of `validate_counter_argument`
(tweety_bridge.py, lines 124-134): a fresh theory with the original and
the counter node, then the type-directed attack. -/
def buildValidationTheory (counter_arg : CounterArgument) : DungTheory :=
  let theory := DungTheory.empty
  let theory := theory.addNode .original
  let theory := theory.addNode (.counter 0)
  addAttackBasedOnType theory counter_arg .original (.counter 0)

/-- The spec's fixed attack-pattern table (spec section 4.3), written from
the spec's words, to be compared against the code's builder: a single
edge counter → original for the four refuting types, and for
ALTERNATIVE_EXPLANATION no edge between counter and original but the two
edges original → conclusion and counter → conclusion. -/
def specAttackEdges (t : CounterArgumentType) : List (NodeId × NodeId) :=
  match t with
  | .ALTERNATIVE_EXPLANATION => [(.original, .conclusion), (.counter 0, .conclusion)]
  | _ => [(.counter 0, .original)]

/-- The node set the spec's table prescribes for a single-counter graph:
the two argument nodes, plus the auxiliary `conclusion` node exactly for
ALTERNATIVE_EXPLANATION (spec section 4.3). -/
def specNodes (t : CounterArgumentType) : List NodeId :=
  match t with
  | .ALTERNATIVE_EXPLANATION => [.original, .counter 0, .conclusion]
  | _ => [.original, .counter 0]

/-- Modelled from the spec: `attackers_of(n)` of section 4.1 — the nodes
with an edge into `n`.  The source delegates this to the external
TweetyProject `DungTheory`. -/
def attackersOf (T : DungTheory) (x : NodeId) : List NodeId :=
  (T.attacks.filter (fun e => decide (e.2 = x))).map Prod.fst

/-- Modelled from the spec: the characteristic function
`F(S) = { x in Nodes : every attacker of x is attacked by some member of S }`
of section 4.2.  The source delegates extension computation to
TweetyProject's reasoners. -/
def charF (T : DungTheory) (S : List NodeId) : List NodeId :=
  T.nodes.filter
    (fun x => (attackersOf T x).all (fun a => S.any (fun s => decide ((s, a) ∈ T.attacks))))

/-- Iterates of `F` starting from the empty set. -/
def groundedIter (T : DungTheory) : Nat → List NodeId
  | 0 => []
  | n + 1 => charF T (groundedIter T n)

/-- Modelled from the spec: the grounded extension as the fixpoint of the
characteristic function reached from `∅` within `|Nodes|` iterations
(section 4.2).  The source uses TweetyProject's `SimpleGroundedReasoner`. -/
def groundedExt (T : DungTheory) : List NodeId := groundedIter T T.nodes.length

/-- Conflict-freeness of a candidate set (spec sections 3 and 4.2). -/
def conflictFree (T : DungTheory) (S : List NodeId) : Bool :=
  S.all (fun a => S.all (fun b => !decide ((a, b) ∈ T.attacks)))

/-- Equality of two node lists as sets. -/
def sameSet (A B : List NodeId) : Bool :=
  A.all (fun x => decide (x ∈ B)) && B.all (fun x => decide (x ∈ A))

/-- Modelled from the spec: a conflict-free candidate `S` is complete iff
`F(S) = S` (section 4.2). -/
def isComplete (T : DungTheory) (S : List NodeId) : Bool :=
  conflictFree T S && sameSet (charF T S) S

/-- Modelled from the spec: complete-extension enumeration by search over
the subsets of the node set (section 4.2).  The source uses
TweetyProject's `SimpleCompleteReasoner`. -/
def completeExts (T : DungTheory) : List (List NodeId) :=
  T.nodes.sublists.filter (isComplete T)

/-- Modelled from the spec: the configurable node-count cap of the
Labelling/Extension Calculator, default 32 (section 4.2). -/
def NODE_CAP : Nat := 32

/-- Modelled from the spec: the `TooLarge` error of the error taxonomy
(section 7). -/
inductive CalcError
  | TooLarge
deriving DecidableEq

/-- Modelled from the spec: the Calculator must fail fast with `TooLarge`
instead of enumerating complete extensions of an AF above the node cap
(sections 4.2 and 5).  The source has no cap: it hands enumeration to the
external reasoner unconditionally. -/
def enumerateCompleteExtensions (T : DungTheory) :
    Except CalcError (List (List NodeId)) :=
  if NODE_CAP < T.nodes.length then .error .TooLarge
  else .ok (completeExts T)

/-- Embeds the theory construction of `assess_argument_strength`
(tweety_bridge.py, lines 198-212) and of `generate_attack_graph`
(lines 260-272): the original node plus one node `counter_i` per
counter-argument, each attached by the type-directed attack. -/
def buildAssessTheory (counter_args : List CounterArgument) : DungTheory :=
  let theory := DungTheory.empty.addNode .original
  counter_args.enum.foldl
    (fun th p =>
      addAttackBasedOnType (th.addNode (.counter p.1)) p.2 .original (.counter p.1))
    theory

/-- Embeds `TweetyBridge._fallback_strength_assessment` (tweety_bridge.py,
lines 418-448). -/
def fallback_strength_assessment (original_arg : Argument)
    (counter_args : List CounterArgument) : ℚ :=
  if counter_args.isEmpty then 1
  else
    let strong_counter_args : Nat :=
      (counter_args.filter
        (fun ca => decide (ca.strength = .STRONG) || decide (ca.strength = .DECISIVE))).length
    let total_counter_args : Nat := counter_args.length
    let strength_factor : ℚ :=
      if 0 < total_counter_args then 1 - (strong_counter_args : ℚ) / (total_counter_args : ℚ)
      else 1
    let count_factor : ℚ := max (2/10) (1 - (1/10) * (total_counter_args : ℚ))
    strength_factor * count_factor

/-- Embeds `TweetyBridge.assess_argument_strength` (tweety_bridge.py,
lines 177-238).  `tweety_available` models `self.tweety_available`; the
Python `except` arm (a failure inside the Java engine) is not reachable in
the pure model. -/
def assess_argument_strength (tweety_available : Bool) (original_arg : Argument)
    (counter_args : List CounterArgument) : ℚ :=
  if !tweety_available || counter_args.isEmpty then
    fallback_strength_assessment original_arg counter_args
  else
    let theory := buildAssessTheory counter_args
    let complete_extensions := completeExts theory
    let acceptance_rate : ℚ :=
      if complete_extensions.isEmpty then 0
      else (complete_extensions.countP (fun ext => decide (NodeId.original ∈ ext)) : ℚ) /
        (complete_extensions.length : ℚ)
    if NodeId.original ∈ groundedExt theory then (acceptance_rate + 1) / 2
    else acceptance_rate

/-- The printable name of a node, as in the source
(`"original"`, `"counter_i"`, `"conclusion"`). -/
def nodeName (n : NodeId) : String :=
  match n with
  | .original => "original"
  | .counter i => "counter_" ++ toString i
  | .conclusion => "conclusion"

/-- Modelled from the spec: `_build_formal_representation` returns
`str(theory)` of the external Java object; the spec only requires a
deterministic textual dump of nodes and edges whose format is not
load-bearing (section 4.4, item 7). -/
def buildFormalRepresentation (T : DungTheory) : String :=
  "nodes: " ++ String.intercalate ", " (T.nodes.map nodeName) ++
    "; attacks: " ++
    String.intercalate ", "
      (T.attacks.map (fun e => nodeName e.1 ++ " -> " ++ nodeName e.2))

/-- Modelled from the spec: `_extension_to_string` returns `str(extension)`
of the external Java object; only determinism matters (section 4.4). -/
def extensionToString (S : List NodeId) : String :=
  "\x7b" ++ String.intercalate ", " (S.map nodeName) ++ "\x7d"

/-- The dictionary returned by `validate_counter_argument` and
`_fallback_validation` (tweety_bridge.py, lines 161-171 and 406-416). -/
structure ValidationDict where
  is_valid_attack : Bool
  original_survives : Bool
  counter_succeeds : Bool
  logical_consistency : Bool
  formal_representation : String
  extensions_grounded : String
  extensions_complete : List String
deriving DecidableEq

/-- Embeds `TweetyBridge._fallback_validation` (tweety_bridge.py,
lines 381-416). -/
def fallback_validation (original_arg : Argument) (counter_arg : CounterArgument) :
    ValidationDict :=
  { is_valid_attack := true
    original_survives :=
      decide (counter_arg.strength ∈ [ArgumentStrength.WEAK, ArgumentStrength.MODERATE])
    counter_succeeds :=
      decide (counter_arg.strength ∈
        [ArgumentStrength.MODERATE, ArgumentStrength.STRONG, ArgumentStrength.DECISIVE])
    logical_consistency := true
    formal_representation := "Non disponible (TweetyProject non disponible)"
    extensions_grounded := "Non disponible"
    extensions_complete := ["Non disponible"] }

/-- Embeds the formal (Tweety-available) branch of
`validate_counter_argument` (tweety_bridge.py, lines 121-171), with the
reasoners replaced by the spec-modelled calculator. -/
def formalValidation (counter_arg : CounterArgument) : ValidationDict :=
  let theory := buildValidationTheory counter_arg
  let grounded_extension := groundedExt theory
  let complete_extensions := completeExts theory
  let original_in_grounded := decide (NodeId.original ∈ grounded_extension)
  let counter_in_grounded := decide (NodeId.counter 0 ∈ grounded_extension)
  let original_in_complete :=
    complete_extensions.any (fun ext => decide (NodeId.original ∈ ext))
  let counter_in_complete :=
    complete_extensions.any (fun ext => decide (NodeId.counter 0 ∈ ext))
  { is_valid_attack := counter_in_grounded && !original_in_grounded
    original_survives := original_in_complete
    counter_succeeds := counter_in_grounded || counter_in_complete
    logical_consistency := decide (0 < complete_extensions.length)
    formal_representation := buildFormalRepresentation theory
    extensions_grounded := extensionToString grounded_extension
    extensions_complete := complete_extensions.map extensionToString }

/-- Embeds `TweetyBridge.validate_counter_argument` (tweety_bridge.py,
lines 102-175): when `self.tweety_available` is false the heuristic
fallback dictionary is returned directly (line 119); no error value of any
kind exists in the code.  The `except` arm (line 175), which also returns
the fallback, is not reachable in the pure model. -/
def validate_counter_argument (tweety_available : Bool) (original_arg : Argument)
    (counter_arg : CounterArgument) : ValidationDict :=
  if !tweety_available then fallback_validation original_arg counter_arg
  else formalValidation counter_arg

/-- Embeds the `ValidationResult` dataclass (definitions.py, lines 84-91). -/
structure ValidationResult where
  is_valid_attack : Bool
  original_survives : Bool
  counter_succeeds : Bool
  logical_consistency : Bool
  formal_representation : Option String
deriving DecidableEq

/-- Embeds `CounterArgumentValidator.validate` (validator.py, lines 38-66):
it forwards to the bridge and repackages the dictionary, with no branch on
whether the bridge fell back. -/
def validator_validate (tweety_available : Bool) (original_argument : Argument)
    (counter_argument : CounterArgument) : ValidationResult :=
  let validation_result :=
    validate_counter_argument tweety_available original_argument counter_argument
  { is_valid_attack := validation_result.is_valid_attack
    original_survives := validation_result.original_survives
    counter_succeeds := validation_result.counter_succeeds
    logical_consistency := validation_result.logical_consistency
    formal_representation := some validation_result.formal_representation }

/-- Embeds `TweetyBridge.generate_attack_graph` (tweety_bridge.py,
lines 240-279). -/
def generate_attack_graph (tweety_available : Bool) (original_arg : Argument)
    (counter_args : List CounterArgument) : String :=
  if !tweety_available || counter_args.isEmpty then
    "Graphe d'attaque non disponible."
  else buildFormalRepresentation (buildAssessTheory counter_args)

/-- Embeds the French stop-word list of
`CounterArgumentValidator._extract_key_words` (validator.py,
lines 161-168). -/
def stop_words : List String :=
  ["le", "la", "les", "un", "une", "des", "et", "ou", "mais", "car",
   "donc", "si", "que", "qui", "quoi", "comment", "quand", "où", "est",
   "sont", "a", "ont", "être", "avoir", "pour", "dans", "par", "sur",
   "avec", "sans", "ce", "cette", "ces", "mon", "ma", "mes", "ton",
   "ta", "tes", "son", "sa", "ses", "notre", "nos", "votre", "vos",
   "leur", "leurs", "de", "du", "au", "aux", "en", "y"]

/-- Python's `\w` word-character class, restricted to ASCII plus the
accented letters occurring in French text (the source uses
`re.sub(r'[^\w\s]', '', ...)` with Unicode semantics; the model is
faithful on ASCII and on the listed accented letters). -/
def isWordChar (c : Char) : Bool :=
  c.isAlphanum || c == '_' ||
    ['à', 'â', 'ä', 'ç', 'é', 'è', 'ê', 'ë', 'î', 'ï', 'ô', 'ö', 'ù', 'û', 'ü'].contains c

/-- Embeds `CounterArgumentValidator._extract_key_words` (validator.py,
lines 145-171): lowercase, strip characters that are neither word nor
whitespace, split on whitespace, keep words longer than 2 characters that
are not stop words.  `Char.toLower` is ASCII-only, as is Lean's; the
source lowercases Unicode, so the model is faithful on inputs whose
uppercase letters are ASCII. -/
def extract_key_words (text : String) : List String :=
  let lowered := String.mk (text.toList.map Char.toLower)
  let cleaned := String.mk (lowered.toList.filter (fun c => isWordChar c || c.isWhitespace))
  let words := (cleaned.split Char.isWhitespace).filter (fun w => !w.isEmpty)
  words.filter (fun w => !stop_words.contains w && decide (2 < w.length))

/-- Embeds `CounterArgumentValidator.check_logical_coherence` (validator.py,
lines 110-143): false on an empty premise list or empty conclusion,
otherwise true iff the key words of the premises and of the conclusion
intersect. -/
def check_logical_coherence (premise_set : List String) (conclusion : String) : Bool :=
  if premise_set.isEmpty || conclusion.isEmpty then false
  else
    let premise_words := premise_set.flatMap extract_key_words
    let conclusion_words := extract_key_words conclusion
    premise_words.any (fun w => conclusion_words.contains w)

/-- A concrete argument used by witness statements. -/
def sampleArgument : Argument :=
  { content := "Tous les oiseaux volent car ils ont des ailes"
    premises := ["Les oiseaux ont des ailes"]
    conclusion := "Tous les oiseaux volent"
    argument_type := "deductif"
    confidence := 9/10 }

/-- A concrete counter-argument of the given type and strength, used by
witness statements. -/
def mkCounter (t : CounterArgumentType) (s : ArgumentStrength) : CounterArgument :=
  { original_argument := sampleArgument
    counter_type := t
    counter_content := "Les autruches ne volent pas"
    target_component := "conclusion"
    strength := s
    confidence := 8/10
    supporting_evidence := ["zoologie"]
    rhetorical_strategy := "statistical_evidence" }

/-- C1: for every counter-argument, the attack graph built from
(original, counter, counterType) has exactly the nodes and edges of the
fixed per-type table: a single edge counter → original for
DIRECT_REFUTATION, PREMISE_CHALLENGE, COUNTER_EXAMPLE and
REDUCTIO_AD_ABSURDUM; for ALTERNATIVE_EXPLANATION the auxiliary node
`conclusion` with the two edges original → conclusion and
counter → conclusion, and no edge between counter and original. -/
theorem attack_graph_matches_spec_table (ca : CounterArgument) :
    (buildValidationTheory ca).nodes = specNodes ca.counter_type ∧
    (buildValidationTheory ca).attacks = specAttackEdges ca.counter_type := by
  rcases ca with ⟨oa, ct, cc, tc, st, cf, se, rs⟩
  cases ct <;> exact ⟨rfl, rfl⟩

/-- C2: for every non-empty list of counter-arguments of which `k` have
strength STRONG or DECISIVE among `N` in total, the fallback strength
assessment returns exactly `(1 - k/N) * max(0.2, 1 - 0.1*N)`, and it
returns `1.0` on the empty list. -/
theorem fallback_strength_formula (o : Argument) (counter_args : List CounterArgument)
    (h : counter_args ≠ []) :
    fallback_strength_assessment o counter_args =
      (1 - ((counter_args.countP
          (fun ca => decide (ca.strength = .STRONG) || decide (ca.strength = .DECISIVE))) : ℚ) /
        (counter_args.length : ℚ)) *
      max (1/5 : ℚ) (1 - (1/10 : ℚ) * (counter_args.length : ℚ)) ∧
    fallback_strength_assessment o [] = 1 := by
  have hpos : 0 < counter_args.length := List.length_pos.mpr h
  have hne : counter_args.isEmpty = false := by simp [List.isEmpty_iff, h]
  constructor
  · simp only [fallback_strength_assessment, hne, Bool.false_eq_true, if_false, hpos, if_pos,
      List.countP_eq_length_filter]
    norm_num
  · simp [fallback_strength_assessment]

/-- Witness for C2: two counter-arguments, one STRONG and one WEAK, give
`(1 - 1/2) * max(1/5, 1 - 2/10) = 2/5`; the empty list gives `1`. -/
theorem fallback_strength_formula_witness :
    fallback_strength_assessment sampleArgument
      [mkCounter .DIRECT_REFUTATION .STRONG, mkCounter .COUNTER_EXAMPLE .WEAK] = 2/5 ∧
    fallback_strength_assessment sampleArgument [] = 1 := by
  obtain ⟨h1, h2⟩ := fallback_strength_formula sampleArgument
    [mkCounter .DIRECT_REFUTATION .STRONG, mkCounter .COUNTER_EXAMPLE .WEAK] (by simp)
  refine ⟨?_, h2⟩
  rw [h1]
  have hc : List.countP
      (fun ca => decide (ca.strength = ArgumentStrength.STRONG) ||
        decide (ca.strength = ArgumentStrength.DECISIVE))
      [mkCounter .DIRECT_REFUTATION .STRONG, mkCounter .COUNTER_EXAMPLE .WEAK] = 1 := by
    decide
  rw [hc]
  norm_num [max_def]

/-- C3: for every (original, counter) pair, the fallback validation result
has `is_valid_attack = true`, `logical_consistency = true`,
`original_survives` true exactly when the counter's strength is WEAK or
MODERATE, and `counter_succeeds` true exactly when it is MODERATE, STRONG
or DECISIVE. -/
theorem fallback_validation_fields (o : Argument) (ca : CounterArgument) :
    (fallback_validation o ca).is_valid_attack = true ∧
    (fallback_validation o ca).logical_consistency = true ∧
    ((fallback_validation o ca).original_survives = true ↔
      ca.strength = .WEAK ∨ ca.strength = .MODERATE) ∧
    ((fallback_validation o ca).counter_succeeds = true ↔
      ca.strength = .MODERATE ∨ ca.strength = .STRONG ∨ ca.strength = .DECISIVE) := by
  rcases ca with ⟨oa, ct, cc, tc, st, cf, se, rs⟩
  cases st <;> simp [fallback_validation]

/-- C5: for every original argument, assessing strength against an empty
counter-argument list returns exactly `1.0`, whether or not the formal
engine is available. -/
theorem assess_empty_counters (b : Bool) (o : Argument) :
    assess_argument_strength b o [] = 1 := by
  cases b <;> simp [assess_argument_strength, fallback_strength_assessment]

/-- The fallback strength score always lies in `[0, 1]`. -/
theorem fallback_strength_bounds (o : Argument) (cs : List CounterArgument) :
    0 ≤ fallback_strength_assessment o cs ∧ fallback_strength_assessment o cs ≤ 1 := by
  rw [fallback_strength_assessment]
  by_cases h : cs.isEmpty = true
  · rw [if_pos h]; norm_num
  · rw [if_neg h]
    have hne : cs ≠ [] := by simpa [List.isEmpty_iff] using h
    have hposn : 0 < cs.length := List.length_pos.mpr hne
    have hpos : (0:ℚ) < cs.length := by exact_mod_cast hposn
    have hk : ((cs.filter
        (fun ca => decide (ca.strength = .STRONG) || decide (ca.strength = .DECISIVE))).length : ℚ) ≤
        (cs.length : ℚ) := by exact_mod_cast List.length_filter_le _ _
    have hk0 : (0:ℚ) ≤ ((cs.filter
        (fun ca => decide (ca.strength = .STRONG) || decide (ca.strength = .DECISIVE))).length : ℚ) := by
      positivity
    dsimp only
    rw [if_pos hposn]
    have hsf0 : (0:ℚ) ≤ 1 - ((cs.filter
        (fun ca => decide (ca.strength = .STRONG) || decide (ca.strength = .DECISIVE))).length : ℚ) /
        (cs.length : ℚ) := by
      have := (div_le_one hpos).mpr hk
      linarith
    have hsf1 : 1 - ((cs.filter
        (fun ca => decide (ca.strength = .STRONG) || decide (ca.strength = .DECISIVE))).length : ℚ) /
        (cs.length : ℚ) ≤ 1 := by
      have := div_nonneg hk0 (le_of_lt hpos)
      linarith
    have hcf0 : (0:ℚ) ≤ max (2/10) (1 - (1/10) * (cs.length : ℚ)) :=
      le_trans (by norm_num) (le_max_left _ _)
    have hcf1 : max (2/10 : ℚ) (1 - (1/10) * (cs.length : ℚ)) ≤ 1 := by
      apply max_le (by norm_num)
      have : (0:ℚ) ≤ (1/10) * (cs.length : ℚ) := by positivity
      linarith
    exact ⟨mul_nonneg hsf0 hcf0, mul_le_one₀ hsf1 hcf0 hcf1⟩

/-- The acceptance rate computed over a list of complete extensions lies
in `[0, 1]`. -/
theorem acceptance_rate_bounds (C : List (List NodeId)) :
    0 ≤ (if C.isEmpty then (0:ℚ)
      else (C.countP (fun ext => decide (NodeId.original ∈ ext)) : ℚ) / (C.length : ℚ)) ∧
    (if C.isEmpty then (0:ℚ)
      else (C.countP (fun ext => decide (NodeId.original ∈ ext)) : ℚ) / (C.length : ℚ)) ≤ 1 := by
  by_cases h : C.isEmpty = true
  · rw [if_pos h]; norm_num
  · have hne : C ≠ [] := by simpa [List.isEmpty_iff] using h
    have hpos : (0:ℚ) < C.length := by exact_mod_cast List.length_pos.mpr hne
    rw [if_neg h]
    constructor
    · positivity
    · rw [div_le_one hpos]
      exact_mod_cast List.countP_le_length _

/-- C4: for every availability flag, original argument and list of
counter-arguments, the strength score returned by
`assess_argument_strength` lies in the closed interval `[0, 1]`, on the
formal path as well as on the fallback path. -/
theorem strength_score_in_unit_interval (b : Bool) (o : Argument)
    (cs : List CounterArgument) :
    0 ≤ assess_argument_strength b o cs ∧ assess_argument_strength b o cs ≤ 1 := by
  rw [assess_argument_strength]
  by_cases hb : (!b || cs.isEmpty) = true
  · rw [if_pos hb]; exact fallback_strength_bounds o cs
  · rw [if_neg hb]
    dsimp only
    obtain ⟨h0, h1⟩ := acceptance_rate_bounds (completeExts (buildAssessTheory cs))
    by_cases hg : NodeId.original ∈ groundedExt (buildAssessTheory cs)
    · rw [if_pos hg]
      constructor <;> [linarith; linarith]
    · rw [if_neg hg]
      exact ⟨h0, h1⟩

/-- C6: assessing strength against exactly one DIRECT_REFUTATION
counter-argument yields exactly `0.0` on the formal path (the original is
in 0 of the 1 complete extensions and not in the grounded extension), and
a score strictly below `1.0` on the fallback path as well. -/
theorem single_direct_refutation_zeroes_strength (o : Argument) (ca : CounterArgument)
    (h : ca.counter_type = .DIRECT_REFUTATION) :
    assess_argument_strength true o [ca] = 0 ∧
    assess_argument_strength false o [ca] < 1 := by
  rcases ca with ⟨oa, ct, cc, tc, st, cf, se, rs⟩
  subst h
  constructor
  · have hT : buildAssessTheory [⟨oa, .DIRECT_REFUTATION, cc, tc, st, cf, se, rs⟩] =
        ⟨[.original, .counter 0], [(.counter 0, .original)]⟩ := rfl
    have hC : completeExts ⟨[.original, .counter 0], [(.counter 0, .original)]⟩ =
        [[.counter 0]] := by decide
    have hG : groundedExt ⟨[.original, .counter 0], [(.counter 0, .original)]⟩ =
        [.counter 0] := by decide
    rw [assess_argument_strength, if_neg (by simp)]
    dsimp only
    rw [hT, hC, hG]
    simp [List.countP_cons, List.countP_nil]
  · rw [assess_argument_strength, if_pos (by simp)]
    rw [fallback_strength_assessment, if_neg (by simp)]
    dsimp only
    cases st <;> simp [List.filter, max_def] <;> norm_num

/-- Witness for C6: a concrete MODERATE counter-argument of type
DIRECT_REFUTATION gives a formal score of exactly `0` and a fallback
score below `1`. -/
theorem single_direct_refutation_zeroes_strength_witness :
    assess_argument_strength true sampleArgument
      [mkCounter .DIRECT_REFUTATION .MODERATE] = 0 ∧
    assess_argument_strength false sampleArgument
      [mkCounter .DIRECT_REFUTATION .MODERATE] < 1 :=
  single_direct_refutation_zeroes_strength sampleArgument
    (mkCounter .DIRECT_REFUTATION .MODERATE) rfl

/-- C7 counterexample: with the formal engine unavailable,
`validate_counter_argument` returns the heuristic fallback dictionary
itself — a normal-shaped result with `is_valid_attack = true` — rather
than surfacing any typed error; no `BuildError` (or any other error
value) exists in the code. -/
theorem validation_silently_substitutes_fallback :
    validate_counter_argument false sampleArgument (mkCounter .DIRECT_REFUTATION .STRONG) =
      fallback_validation sampleArgument (mkCounter .DIRECT_REFUTATION .STRONG) ∧
    (validate_counter_argument false sampleArgument
      (mkCounter .DIRECT_REFUTATION .STRONG)).is_valid_attack = true :=
  ⟨rfl, rfl⟩

/-- C7 amended: when the formal engine is unavailable,
`validate_counter_argument` returns the heuristic fallback result in
place of a formal one with no typed error; the only degraded-mode marker
is the `formal_representation` field, set to the fixed string
`"Non disponible (TweetyProject non disponible)"`, which the validator
wrapper passes through unchanged. -/
theorem validation_fallback_marker (o : Argument) (ca : CounterArgument) :
    validate_counter_argument false o ca = fallback_validation o ca ∧
    (validate_counter_argument false o ca).formal_representation =
      "Non disponible (TweetyProject non disponible)" ∧
    (validator_validate false o ca).formal_representation =
      some "Non disponible (TweetyProject non disponible)" :=
  ⟨rfl, rfl, rfl⟩

/-- C8: complete-extension enumeration returns the `TooLarge` error
exactly on frameworks whose node count exceeds the configured cap, and is
never attempted on them (the enumerator is a total function, so it never
blocks). -/
theorem enumeration_cap_enforced (T : DungTheory) :
    enumerateCompleteExtensions T = .error .TooLarge ↔ NODE_CAP < T.nodes.length := by
  rw [enumerateCompleteExtensions]
  by_cases h : NODE_CAP < T.nodes.length
  · simp [h]
  · simp [h]

/-- C9: `check_logical_coherence` is false when the premise list or the
conclusion is empty, and otherwise true exactly when some extracted key
word occurs both in a premise and in the conclusion. -/
theorem coherence_iff_shared_key_word (ps : List String) (c : String) :
    check_logical_coherence ps c = true ↔
      ps ≠ [] ∧ c ≠ "" ∧
        ∃ w, (∃ p ∈ ps, w ∈ extract_key_words p) ∧ w ∈ extract_key_words c := by
  rw [check_logical_coherence]
  by_cases h : (ps.isEmpty || c.isEmpty) = true
  · rw [if_pos h]
    simp only [Bool.or_eq_true, List.isEmpty_iff, String.isEmpty_iff] at h
    constructor
    · intro hf; exact absurd hf (by simp)
    · rintro ⟨h1, h2, -⟩
      rcases h with h | h
      · exact absurd h h1
      · exact absurd h h2
  · rw [if_neg h]
    simp only [Bool.or_eq_true, List.isEmpty_iff, String.isEmpty_iff, not_or] at h
    dsimp only
    simp [List.any_eq_true, List.mem_flatMap, h.1, h.2]
    constructor
    · rintro ⟨p, hp, w, hw, hcw⟩
      exact ⟨w, ⟨p, hp, hw⟩, hcw⟩
    · rintro ⟨w, ⟨p, hp, hw⟩, hcw⟩
      exact ⟨p, hp, w, hw, hcw⟩

/-- C10: `generate_attack_graph` returns the fixed constant string when
the formal engine is unavailable or the counter-argument list is empty,
instead of a textual graph dump. -/
theorem attack_graph_unavailable_constant (b : Bool) (o : Argument)
    (cs : List CounterArgument) :
    generate_attack_graph false o cs = "Graphe d'attaque non disponible." ∧
    generate_attack_graph b o [] = "Graphe d'attaque non disponible." := by
  constructor
  · rfl
  · cases b <;> rfl
